import Mathlib

/-!
Shallow embedding of the hostmetrics receiver factory
(`src/receiver/hostmetricsreceiver/factory.go`), the process-scraper
handle-count manager contract
(`src/.../internal/handlecount/handles.go`) and the loadscraper factory
(`src/unnamed/part_000`), together with theorems settling the spec claims.

Go machine types: `time.Duration` is modelled as `Nat` nanoseconds,
`int64` pids as `Int`, `uint32` counts as `Nat` (no arithmetic is
performed on them, so no overflow reduction is needed).
-/

namespace HostMetrics

/-- Scraper configuration objects (`internal.Config`) are opaque to the
factory code; they are only passed through, so a `Nat` tag suffices. -/
abbrev ScraperCfg : Type := Nat

/-- A constructed metrics scraper (`scraper.Metrics`): the factory code
only stores and forwards it, so it is identified by a name tag. -/
abbrev ScraperMetrics : Type := String

/-- The `internal.ScraperFactory` capability: it can produce a default configuration and
construct a metrics scraper from a configuration (which may fail). -/
structure ScraperFactory where
  createDefaultConfig : ScraperCfg
  createMetricsScraper : ScraperCfg → Except String ScraperMetrics

/-- A registry factory whose scraper construction always succeeds,
returning the scraper tagged with the domain name.  The nine scraper
factories other than loadscraper are not under `src/`; per the spec,
receiver construction fails only on configuration errors, so their
`CreateMetricsScraper` is modelled as always succeeding.  The
loadscraper factory (`src/unnamed/part_000`) constructs the scraper with
`scraper.NewMetrics(s.scrape, ...)` with a non-nil scrape function,
which also always succeeds. -/
def simpleFactory (name : String) : ScraperFactory :=
  { createDefaultConfig := 0
    createMetricsScraper := fun _ => .ok name }

/-- The process-wide scraper factory registry (`scraperFactories` in
`factory.go`): a mapping from scraper key to factory, built once and
never mutated.  The key of the load scraper (`loadscraper.TypeStr =
"load"`) is in `src/unnamed/part_000`; the other nine keys follow the
scraper package names, as the spec describes ("cpu", "disk", ...). -/
def scraperFactories : List (String × ScraperFactory) :=
  [ ("cpu",        simpleFactory "cpu"),
    ("disk",       simpleFactory "disk"),
    ("load",       simpleFactory "load"),
    ("filesystem", simpleFactory "filesystem"),
    ("memory",     simpleFactory "memory"),
    ("network",    simpleFactory "network"),
    ("paging",     simpleFactory "paging"),
    ("processes",  simpleFactory "processes"),
    ("process",    simpleFactory "process"),
    ("system",     simpleFactory "system") ]

/-- Go map indexing `factories[key]` (comma-ok form). -/
def mapIndex (factories : List (String × ScraperFactory)) (key : String) :
    Option ScraperFactory :=
  factories.lookup key

/-- Function `getScraperFactory` (factory.go lines 63-69): look the key up in the
global registry; return `(factory, true)` when present, `(nil, false)`
otherwise. -/
def getScraperFactory (key : String) : Option ScraperFactory × Bool :=
  match mapIndex scraperFactories key with
  | some factory => (some factory, true)
  | none => (none, false)

/-- Duration unit `time.Nanosecond`. -/
def timeNanosecond : Nat := 1

/-- Duration `time.Second` in nanoseconds. -/
def timeSecond : Nat := 1000000000

/-- Duration `time.Minute` in nanoseconds. -/
def timeMinute : Nat := 60 * timeSecond

/-- Constant `defaultMetadataCollectionInterval = 5 * time.Minute`
(factory.go lines 34-36). -/
def defaultMetadataCollectionInterval : Nat := 5 * timeMinute

/-- The `scraperhelper.ControllerConfig` record: its fields (collection interval,
initial delay, timeout) are never inspected by the code under `src/`,
so it is opaque here. -/
structure ControllerConfig where
  tag : Unit

/-- Constructor `scraperhelper.NewDefaultControllerConfig()`: an external
constructor; the factory code only stores its result. -/
def NewDefaultControllerConfig : ControllerConfig := ⟨()⟩

/-- The receiver `Config`: controller settings, the metadata collection
interval, and the map from scraper key to scraper configuration.  Go map
iteration order is unspecified, so `scrapers` is a list recording one
iteration order. -/
structure Config where
  controllerConfig : ControllerConfig
  metadataCollectionInterval : Nat
  scrapers : List (String × ScraperCfg)

/-- Function `createDefaultConfig` (factory.go lines 72-77). -/
def createDefaultConfig : Config :=
  { controllerConfig := NewDefaultControllerConfig
    metadataCollectionInterval := defaultMetadataCollectionInterval
    scrapers := [] }

/-- The two error shapes `createAddScraperOptions` can produce:
`fmt.Errorf("failed to create scraper for key %q: %w", key, err)` and
`fmt.Errorf("host metrics scraper factory not found for key: %q", key)`. -/
inductive FactoryError where
  | failedToCreate (key : String) (cause : String)
  | factoryNotFound (key : String)
  deriving DecidableEq, Repr

/-- Function `createHostMetricsScraper` (factory.go lines 139-149): returns the
triple of Go named results `(s, ok, err)`.  When the key has no factory
it returns `ok = false` with no scraper and no error; otherwise it
returns `ok = true` together with the outcome of
`factory.CreateMetricsScraper`. -/
def createHostMetricsScraper (factories : List (String × ScraperFactory))
    (key : String) (cfg : ScraperCfg) :
    Option ScraperMetrics × Bool × Option String :=
  match mapIndex factories key with
  | none => (none, false, none)
  | some factory =>
    match factory.createMetricsScraper cfg with
    | .ok s => (some s, true, none)
    | .error e => (none, true, some e)

/-- An option `scraperhelper.ScraperControllerOption` produced by
`scraperhelper.AddScraper(metadata.Type, scraper)`: the factory code
only accumulates these, so the option is the added scraper. -/
structure ScraperControllerOption where
  addedScraper : ScraperMetrics

/-- Call `scraperhelper.AddScraper(metadata.Type, s)`. -/
def AddScraper (s : ScraperMetrics) : ScraperControllerOption := ⟨s⟩

/-- Function `createAddScraperOptions` (factory.go lines 114-137): walk the
configured scrapers, constructing each one; a construction error is
wrapped as `failedToCreate`, a missing factory aborts with
`factoryNotFound`; otherwise return the accumulated options. -/
def createAddScraperOptions (factories : List (String × ScraperFactory))
    (scrapers : List (String × ScraperCfg)) :
    Except FactoryError (List ScraperControllerOption) :=
  match scrapers with
  | [] => .ok []
  | (key, cfg) :: rest =>
    match createHostMetricsScraper factories key cfg with
    | (_, _, some err) => .error (.failedToCreate key err)
    | (some s, true, none) =>
      match createAddScraperOptions factories rest with
      | .ok opts => .ok (AddScraper s :: opts)
      | .error e => .error e
    | (_, _, none) => .error (.factoryNotFound key)

/-- The metrics receiver returned by
`scraperhelper.NewScraperControllerReceiver`: the factory code only
passes the controller configuration and the scraper options through. -/
structure MetricsReceiver where
  controllerConfig : ControllerConfig
  options : List ScraperControllerOption

/-- Function `createMetricsReceiver` (factory.go lines 80-102): build the scraper
options (propagating any error before any receiver is produced), enable
the boot-time caches, and construct the controller receiver. -/
def createMetricsReceiver (cfg : Config) :
    Except FactoryError MetricsReceiver :=
  match createAddScraperOptions scraperFactories cfg.scrapers with
  | .error e => .error e
  | .ok opts => .ok { controllerConfig := cfg.controllerConfig, options := opts }

/-- The `hostEntitiesReceiver` built by `createLogsReceiver`: it stores
the configuration, the downstream logs consumer and the settings.
Consumers and settings are opaque to the factory, tagged by `Nat`. -/
structure hostEntitiesReceiver where
  cfg : Config
  nextLogs : Nat
  settings : Nat

/-- Function `createLogsReceiver` (factory.go lines 104-112): wrap the
configuration, consumer and settings; never fails. -/
def createLogsReceiver (set : Nat) (cfg : Config) (consumer : Nat) :
    Except FactoryError hostEntitiesReceiver :=
  .ok { cfg := cfg, nextLogs := consumer, settings := set }

/-- One scraper's metric data for one round; opaque to the controller,
tagged by `Nat`. -/
abbrev MetricsData : Type := Nat

/-- The outcome of one controller round: the merged batch forwarded to
the consumer (`none` when nothing is forwarded) and the keys of the
scrapers that failed this round (the content of the round's
PartialError; empty when nothing failed). -/
structure RoundOutcome where
  forwarded : Option (List MetricsData)
  failedKeys : List String
  deriving DecidableEq, Repr

/-- The data contributed by the scrapers whose scrape succeeded, in
round order. -/
def roundSuccesses (results : List (String × Except String MetricsData)) :
    List MetricsData :=
  results.filterMap fun kr =>
    match kr.2 with
    | .ok d => some d
    | .error _ => none

/-- The keys of the scrapers whose scrape failed fatally, in round
order. -/
def roundFailures (results : List (String × Except String MetricsData)) :
    List String :=
  results.filterMap fun kr =>
    match kr.2 with
    | .ok _ => none
    | .error _ => some kr.1

/-- Modelled from the spec: the scraper controller
(`scraperhelper.NewScraperControllerReceiver`) is not under `src/`;
spec section 4.4 gives its round semantics: invoke `scrape` on every
active scraper; a fatal scraper failure removes that scraper's
contribution but does not abort the others; if at least one scraper
succeeded, forward the merged batch together with a PartialError
describing the failures; if all failed, forward nothing. -/
def controllerRound (results : List (String × Except String MetricsData)) :
    RoundOutcome :=
  if (roundSuccesses results).isEmpty then
    { forwarded := none, failedKeys := roundFailures results }
  else
    { forwarded := some (roundSuccesses results)
      failedKeys := roundFailures results }

/-- Modelled from the spec: the handle-count manager implementation is
not under `src/` (only the `Manager` interface, `handles.go` lines 6-9).
Spec section 4.3: `refresh()` re-reads the OS-wide handle-count table
once per cycle into a snapshot.  The state is the snapshot: a mapping
from pid (`int64`) to open-handle count (`uint32`). -/
structure handleCountManager where
  counts : List (Int × Nat)
  deriving Repr

/-- Modelled from the spec: `Refresh()` replaces the snapshot with the
current OS process handle-count table (passed explicitly here as the
environment the real call reads). -/
def refresh (osTable : List (Int × Nat)) (_m : handleCountManager) :
    handleCountManager :=
  { counts := osTable }

/-- Modelled from the spec: `GetProcessHandleCount(pid)` returns the
most recent refreshed value for the pid, failing with a not-found error
when the pid is absent from the snapshot. -/
def getProcessHandleCount (m : handleCountManager) (pid : Int) :
    Except String Nat :=
  match m.counts.lookup pid with
  | some count => .ok count
  | none => .error "process not found"

/-- The events of a receiver's construction and startup that the claims
about boot-time caching order: constructing a scraper, enabling the two
gopsutil boot-time caches, and running a scraper's start operation. -/
inductive Event where
  | createScraper (key : String)
  | enableHostBootTimeCache
  | enableProcessBootTimeCache
  | scraperStart (key : String)
  deriving DecidableEq, Repr

/-- The construction-time event trace of `createMetricsReceiver`
(factory.go lines 80-102): `createAddScraperOptions` constructs one
scraper per configured key; on success `host.EnableBootTimeCache(true)`
and `process.EnableBootTimeCache(true)` run, then the controller
receiver is built.  Scraper `start` operations do not run during
construction. -/
def createMetricsReceiverEvents (cfg : Config) :
    Except FactoryError (List Event) :=
  match createAddScraperOptions scraperFactories cfg.scrapers with
  | .error e => .error e
  | .ok _ =>
    .ok ((cfg.scrapers.map fun kc => Event.createScraper kc.1) ++
      [Event.enableHostBootTimeCache, Event.enableProcessBootTimeCache])

/-- Modelled from the spec: the controller's `Start`
(`scraperhelper`, not under `src/`) runs every scraper's start
operation; this happens only after the receiver has been constructed. -/
def controllerStartEvents (cfg : Config) : List Event :=
  cfg.scrapers.map fun kc => Event.scraperStart kc.1

/-- The full lifecycle trace a successful receiver sees: construction
events followed by the controller start events. -/
def receiverLifecycleEvents (cfg : Config) :
    Except FactoryError (List Event) :=
  match createMetricsReceiverEvents cfg with
  | .error e => .error e
  | .ok constructed => .ok (constructed ++ controllerStartEvents cfg)

/-- The gopsutil boot-time cache switch: `EnableBootTimeCache(enable)`
sets the package-level cache flag to `enable` (modelled from the spec's
"shared one-time optimizations ... idempotently": the call only sets a
boolean flag).  Given the call argument and the current flag, it
returns the new flag. -/
def EnableBootTimeCache (enable : Bool) (_flag : Bool) : Bool := enable

/-- Lifecycle states of a scraper: uninitialized, started, shut down
(spec section 4.2). -/
inductive LifecycleState where
  | fresh
  | started
  | stopped
  deriving DecidableEq, Repr

/-- Modelled from the spec: the per-scraper lifecycle state the
`shutdown` operation acts on (the scraper implementations are not under
`src/`; `src/unnamed/part_000` only wires `s.shutdown` via
`scraper.WithShutdown`).  `heldResources` counts resources currently
held, `releasedTotal` counts release operations performed. -/
structure scraperLifecycle where
  state : LifecycleState
  heldResources : Nat
  releasedTotal : Nat
  deriving DecidableEq, Repr

/-- Modelled from the spec: `shutdown(ctx)` releases resources and is
idempotent (spec section 4.2); a second call after a completed shutdown
finds no resources to release and reports no error. -/
def shutdown (s : scraperLifecycle) : scraperLifecycle × Option String :=
  match s.state with
  | .stopped => (s, none)
  | _ =>
    ({ state := .stopped
       heldResources := 0
       releasedTotal := s.releasedTotal + s.heldResources }, none)

/-! Generic association-list lookup lemmas shared by the theorems. -/

theorem mem_of_lookup_eq_some {α β : Type} [BEq α] [LawfulBEq α]
    {l : List (α × β)} {k : α} {v : β} (h : l.lookup k = some v) :
    (k, v) ∈ l := by
  induction l with
  | nil => simp [List.lookup] at h
  | cons p rest ih =>
    obtain ⟨k₀, v₀⟩ := p
    simp only [List.lookup] at h
    split at h
    next hb =>
      cases h
      have : k = k₀ := eq_of_beq hb
      subst this
      exact List.mem_cons_self _ _
    next => exact List.mem_cons_of_mem _ (ih h)

theorem lookup_eq_some_of_mem {α β : Type} [BEq α] [LawfulBEq α]
    {l : List (α × β)} (hnd : (l.map Prod.fst).Nodup) {k : α} {v : β}
    (h : (k, v) ∈ l) : l.lookup k = some v := by
  induction l with
  | nil => simp at h
  | cons p rest ih =>
    obtain ⟨k₀, v₀⟩ := p
    simp only [List.map_cons, List.nodup_cons] at hnd
    rcases List.mem_cons.mp h with heq | hmem
    · cases heq
      simp [List.lookup]
    · have hk : k ≠ k₀ := by
        intro hkk
        subst hkk
        exact hnd.1 (List.mem_map.mpr ⟨(k, v), hmem, rfl⟩)
      simp only [List.lookup]
      have : (k == k₀) = false := beq_eq_false_iff_ne.mpr hk
      rw [this]
      exact ih hnd.2 hmem

theorem lookup_eq_none_iff_forall {α β : Type} [BEq α] [LawfulBEq α]
    {l : List (α × β)} {k : α} :
    l.lookup k = none ↔ ∀ v, (k, v) ∉ l := by
  induction l with
  | nil => simp [List.lookup]
  | cons p rest ih =>
    obtain ⟨k₀, v₀⟩ := p
    simp only [List.lookup]
    constructor
    · intro h v hv
      split at h
      next => cases h
      next hb =>
        rcases List.mem_cons.mp hv with heq | hmem
        · cases heq
          simp at hb
        · exact ih.mp h v hmem
    · intro h
      have hk : k ≠ k₀ := by
        intro hkk
        subst hkk
        exact h v₀ (List.mem_cons_self _ _)
      have : (k == k₀) = false := beq_eq_false_iff_ne.mpr hk
      rw [this]
      exact ih.mpr fun v hv => h v (List.mem_cons_of_mem _ hv)

/-- Claim C6: registry lookup is a pure function: `getScraperFactory key`
returns `(factory, true)` exactly when `key` maps to `factory` in the
registry and `(none, false)` exactly when no entry has that key; the
registry has no key registered twice, and being an immutable definition
it is never mutated, so any two lookups of the same key agree. -/
theorem getScraperFactory_pure_lookup :
    (∀ key factory, getScraperFactory key = (some factory, true) ↔
        (key, factory) ∈ scraperFactories) ∧
    (∀ key, getScraperFactory key = (none, false) ↔
        ∀ factory, (key, factory) ∉ scraperFactories) ∧
    (scraperFactories.map Prod.fst).Nodup := by
  have hnd : (scraperFactories.map Prod.fst).Nodup := by
    simp [scraperFactories, simpleFactory]
  refine ⟨fun key factory => ⟨?_, ?_⟩, fun key => ⟨?_, ?_⟩, hnd⟩
  · intro h
    unfold getScraperFactory at h
    cases hl : mapIndex scraperFactories key with
    | none => rw [hl] at h; cases h
    | some f =>
      rw [hl] at h
      cases h
      exact mem_of_lookup_eq_some hl
  · intro h
    have : mapIndex scraperFactories key = some factory :=
      lookup_eq_some_of_mem hnd h
    unfold getScraperFactory
    rw [this]
  · intro h
    cases hl : mapIndex scraperFactories key with
    | none => exact lookup_eq_none_iff_forall.mp hl
    | some f =>
      unfold getScraperFactory at h
      rw [hl] at h
      cases h
  · intro h
    have : mapIndex scraperFactories key = none :=
      lookup_eq_none_iff_forall.mpr h
    unfold getScraperFactory
    rw [this]

/-- Witness for C6 at a concrete key: the load scraper's key resolves
to its registered factory. -/
theorem getScraperFactory_pure_lookup_witness :
    getScraperFactory "load" = (some (simpleFactory "load"), true) :=
  (getScraperFactory_pure_lookup.1 "load" (simpleFactory "load")).mpr
    (by simp [scraperFactories])

/-- Claim C7: the default configuration sets the metadata-collection
interval governing the Host-Entity Emitter to exactly five minutes. -/
theorem createDefaultConfig_metadata_interval_five_minutes :
    createDefaultConfig.metadataCollectionInterval = 5 * timeMinute ∧
    createDefaultConfig.metadataCollectionInterval = 300 * timeSecond :=
  ⟨rfl, rfl⟩

/-- Claim C10: `createLogsReceiver` never fails: for every settings,
configuration and logs consumer (including configurations whose scraper
keys are unregistered) it returns a `hostEntitiesReceiver` wrapping that
configuration and consumer, with no error. -/
theorem createLogsReceiver_never_fails :
    ∀ (set : Nat) (cfg : Config) (consumer : Nat),
      createLogsReceiver set cfg consumer =
        .ok { cfg := cfg, nextLogs := consumer, settings := set } ∧
      ∃ r, createLogsReceiver set cfg consumer = .ok r ∧
        r.cfg = cfg ∧ r.nextLogs = consumer ∧ r.settings = set :=
  fun _ _ _ => ⟨rfl, _, rfl, rfl, rfl, rfl⟩

/-- Claim C8: scraper shutdown is idempotent: a second shutdown after a
completed one reports no error, leaves the scraper's state unchanged,
and releases no resource twice (the release total does not grow). -/
theorem shutdown_idempotent :
    ∀ s : scraperLifecycle,
      (shutdown (shutdown s).1).2 = none ∧
      (shutdown (shutdown s).1).1 = (shutdown s).1 ∧
      ((shutdown (shutdown s).1).1).releasedTotal =
        ((shutdown s).1).releasedTotal := by
  intro s
  rcases s with ⟨st, held, rel⟩
  cases st <;> simp [shutdown]

/-- Claim C4: after a refresh from the OS table, looking up a pid absent
from the refreshed snapshot fails with the not-found error, looking up a
present pid returns exactly the count the refresh recorded, and the
snapshot equals the refresh-time table however the manager looked
before — lookups read only the snapshot, so later changes to the OS
process table cannot affect them until the next refresh. -/
theorem handleCount_refresh_snapshot :
    ∀ (osTable : List (Int × Nat)) (m : handleCountManager) (pid : Int),
      ((osTable.lookup pid).isNone →
        getProcessHandleCount (refresh osTable m) pid =
          .error "process not found") ∧
      (∀ count, osTable.lookup pid = some count →
        getProcessHandleCount (refresh osTable m) pid = .ok count) ∧
      (refresh osTable m).counts = osTable ∧
      (∀ m' : handleCountManager, refresh osTable m = refresh osTable m') := by
  intro osTable m pid
  refine ⟨?_, ?_, rfl, fun _ => rfl⟩
  · intro h
    rw [Option.isNone_iff_eq_none] at h
    simp [getProcessHandleCount, refresh, h]
  · intro count hc
    simp [getProcessHandleCount, refresh, hc]

/-- Witness for C4 at a concrete snapshot: pid 7 is present with count
42, pid 8 is absent. -/
theorem handleCount_refresh_snapshot_witness :
    getProcessHandleCount (refresh [((7 : Int), 42)] ⟨[]⟩) 7 = .ok 42 ∧
    getProcessHandleCount (refresh [((7 : Int), 42)] ⟨[]⟩) 8 =
      .error "process not found" :=
  ⟨(handleCount_refresh_snapshot [((7 : Int), 42)] ⟨[]⟩ 7).2.1 42 (by decide),
   (handleCount_refresh_snapshot [((7 : Int), 42)] ⟨[]⟩ 8).1 (by decide)⟩

/-! Helper lemmas about the registry and option construction. -/

theorem registry_values_simple :
    ∀ p ∈ scraperFactories, ∃ n, p.2 = simpleFactory n := by
  intro p hp
  fin_cases hp <;> exact ⟨_, rfl⟩

theorem registry_create_ok {key : String} {factory : ScraperFactory}
    (h : mapIndex scraperFactories key = some factory) (cfg : ScraperCfg) :
    ∃ s, factory.createMetricsScraper cfg = .ok s := by
  obtain ⟨n, hn⟩ :=
    registry_values_simple (key, factory) (mem_of_lookup_eq_some h)
  rw [show (key, factory).2 = factory from rfl] at hn
  subst hn
  exact ⟨n, rfl⟩

theorem createAddScraperOptions_ok_iff
    (scrapers : List (String × ScraperCfg)) :
    (∃ opts, createAddScraperOptions scraperFactories scrapers = .ok opts) ↔
      ∀ kc ∈ scrapers, (mapIndex scraperFactories kc.1).isSome := by
  induction scrapers with
  | nil => simp [createAddScraperOptions]
  | cons kc rest ih =>
    obtain ⟨key, cfg⟩ := kc
    cases hl : mapIndex scraperFactories key with
    | none =>
      have hhd : createHostMetricsScraper scraperFactories key cfg =
          (none, false, none) := by
        unfold createHostMetricsScraper
        rw [hl]
      constructor
      · rintro ⟨opts, hopts⟩
        simp only [createAddScraperOptions, hhd] at hopts
        cases hopts
      · intro hall
        have := hall (key, cfg) (List.mem_cons_self _ _)
        rw [show ((key, cfg) : String × ScraperCfg).1 = key from rfl, hl] at this
        cases this
    | some f =>
      obtain ⟨s, hs⟩ := registry_create_ok hl cfg
      have hhd : createHostMetricsScraper scraperFactories key cfg =
          (some s, true, none) := by
        unfold createHostMetricsScraper
        rw [hl]
        simp [hs]
      constructor
      · rintro ⟨opts, hopts⟩
        simp only [createAddScraperOptions, hhd] at hopts
        intro kc hkc
        rcases List.mem_cons.mp hkc with heq | hmem
        · subst heq
          rw [show ((key, cfg) : String × ScraperCfg).1 = key from rfl, hl]
          rfl
        · cases hr : createAddScraperOptions scraperFactories rest with
          | error e => rw [hr] at hopts; cases hopts
          | ok opts' => exact ih.mp ⟨opts', hr⟩ kc hmem
      · intro hall
        obtain ⟨opts', hr⟩ :=
          ih.mpr fun kc hkc => hall kc (List.mem_cons_of_mem _ hkc)
        exact ⟨AddScraper s :: opts',
          by simp only [createAddScraperOptions, hhd, hr]⟩

theorem createAddScraperOptions_error_of_missing
    (scrapers : List (String × ScraperCfg))
    (hex : ∃ kc ∈ scrapers, (mapIndex scraperFactories kc.1).isNone) :
    ∃ k, (∃ c, (k, c) ∈ scrapers) ∧ (mapIndex scraperFactories k).isNone ∧
      createAddScraperOptions scraperFactories scrapers =
        .error (.factoryNotFound k) := by
  induction scrapers with
  | nil => simp at hex
  | cons kc rest ih =>
    obtain ⟨key, cfg⟩ := kc
    cases hl : mapIndex scraperFactories key with
    | none =>
      have hhd : createHostMetricsScraper scraperFactories key cfg =
          (none, false, none) := by
        unfold createHostMetricsScraper
        rw [hl]
      refine ⟨key, ⟨cfg, List.mem_cons_self _ _⟩, by rw [hl]; rfl, ?_⟩
      simp only [createAddScraperOptions, hhd]
    | some f =>
      obtain ⟨s, hs⟩ := registry_create_ok hl cfg
      have hhd : createHostMetricsScraper scraperFactories key cfg =
          (some s, true, none) := by
        unfold createHostMetricsScraper
        rw [hl]
        simp [hs]
      have hex' : ∃ kc ∈ rest, (mapIndex scraperFactories kc.1).isNone := by
        rcases hex with ⟨kc', hmem, hnone⟩
        rcases List.mem_cons.mp hmem with heq | hm
        · subst heq
          rw [show ((key, cfg) : String × ScraperCfg).1 = key from rfl, hl]
            at hnone
          cases hnone
        · exact ⟨kc', hm, hnone⟩
      obtain ⟨k, ⟨c, hmem⟩, hnone, herr⟩ := ih hex'
      exact ⟨k, ⟨c, List.mem_cons_of_mem _ hmem⟩, hnone,
        by simp only [createAddScraperOptions, hhd, herr]⟩

/-- Claim C1: metrics-receiver construction succeeds and returns a
receiver if and only if every configured scraper key resolves to a
registered factory; when some key does not resolve, construction
returns the configuration error naming a missing configured key and,
the result being an error, no receiver is produced. -/
theorem createMetricsReceiver_ok_iff_keys_resolve :
    ∀ cfg : Config,
      ((∃ r, createMetricsReceiver cfg = .ok r) ↔
        ∀ kc ∈ cfg.scrapers, (mapIndex scraperFactories kc.1).isSome) ∧
      ((∃ kc ∈ cfg.scrapers, (mapIndex scraperFactories kc.1).isNone) →
        ∃ k, (∃ c, (k, c) ∈ cfg.scrapers) ∧
          (mapIndex scraperFactories k).isNone ∧
          createMetricsReceiver cfg = .error (.factoryNotFound k)) := by
  intro cfg
  constructor
  · constructor
    · rintro ⟨r, hr⟩
      unfold createMetricsReceiver at hr
      cases ho : createAddScraperOptions scraperFactories cfg.scrapers with
      | error e => rw [ho] at hr; cases hr
      | ok opts => exact (createAddScraperOptions_ok_iff cfg.scrapers).mp ⟨opts, ho⟩
    · intro hall
      obtain ⟨opts, ho⟩ := (createAddScraperOptions_ok_iff cfg.scrapers).mpr hall
      refine ⟨{ controllerConfig := cfg.controllerConfig, options := opts }, ?_⟩
      unfold createMetricsReceiver
      rw [ho]
  · intro hex
    obtain ⟨k, hmem, hnone, herr⟩ :=
      createAddScraperOptions_error_of_missing cfg.scrapers hex
    refine ⟨k, hmem, hnone, ?_⟩
    unfold createMetricsReceiver
    rw [herr]

/-- Witness for C1: a configuration of two registered keys constructs a
receiver; a configuration with the unregistered key "bogus" fails with
the not-found configuration error. -/
theorem createMetricsReceiver_ok_iff_keys_resolve_witness :
    (∃ r, createMetricsReceiver ⟨⟨()⟩, 0, [("cpu", 0), ("load", 1)]⟩ =
      .ok r) ∧
    (∃ k, (∃ c, (k, c) ∈ ([("bogus", 0)] : List (String × ScraperCfg))) ∧
      (mapIndex scraperFactories k).isNone ∧
      createMetricsReceiver ⟨⟨()⟩, 0, [("bogus", 0)]⟩ =
        .error (.factoryNotFound k)) :=
  ⟨(createMetricsReceiver_ok_iff_keys_resolve ⟨⟨()⟩, 0,
      [("cpu", 0), ("load", 1)]⟩).1.mpr (by decide),
   (createMetricsReceiver_ok_iff_keys_resolve ⟨⟨()⟩, 0,
      [("bogus", 0)]⟩).2 (by decide)⟩

theorem roundSuccesses_length_add
    (results : List (String × Except String MetricsData)) :
    (roundSuccesses results).length + (roundFailures results).length =
      results.length := by
  induction results with
  | nil => rfl
  | cons kr rest ih =>
    obtain ⟨k, r⟩ := kr
    simp only [roundSuccesses, roundFailures, List.filterMap_cons] at ih ⊢
    cases r <;> simp <;> omega

/-- Claim C2: in a controller round with K active scrapers where
exactly one fails fatally and the rest succeed, the controller still
forwards a merged batch holding the other K-1 scrapers' data, and the
round's PartialError cites exactly the one failed scraper. -/
theorem controllerRound_single_failure :
    ∀ (results : List (String × Except String MetricsData)) (k : String),
      roundFailures results = [k] →
      2 ≤ results.length →
      (controllerRound results).forwarded = some (roundSuccesses results) ∧
      (roundSuccesses results).length = results.length - 1 ∧
      (controllerRound results).failedKeys = [k] := by
  intro results k hf hlen
  have hadd := roundSuccesses_length_add results
  rw [hf] at hadd
  have hslen : (roundSuccesses results).length = results.length - 1 := by
    simp at hadd
    omega
  have hne : (roundSuccesses results).isEmpty = false := by
    cases hsr : roundSuccesses results with
    | nil => rw [hsr] at hslen; simp at hslen; omega
    | cons a l => rfl
  refine ⟨?_, hslen, ?_⟩
  · simp [controllerRound, hne]
  · simp [controllerRound, hne, hf]

/-- Witness for C2 at a concrete round: of two scrapers, "cpu" succeeds
with data 7 and "disk" fails; the batch [7] is forwarded and the
PartialError cites exactly "disk". -/
theorem controllerRound_single_failure_witness :
    (controllerRound [("cpu", .ok 7), ("disk", .error "io")]).forwarded =
      some [7] ∧
    (roundSuccesses [("cpu", .ok 7), ("disk", .error "io")]).length = 1 ∧
    (controllerRound [("cpu", .ok 7), ("disk", .error "io")]).failedKeys =
      ["disk"] :=
  have h := controllerRound_single_failure
    [("cpu", .ok 7), ("disk", .error "io")] "disk" rfl (by decide)
  ⟨h.1, h.2.1, h.2.2⟩

theorem createAddScraperOptions_notFound_means_missing
    (factories : List (String × ScraperFactory)) :
    ∀ (scrapers : List (String × ScraperCfg)) (k : String),
      createAddScraperOptions factories scrapers =
        .error (.factoryNotFound k) →
      (mapIndex factories k).isNone := by
  intro scrapers
  induction scrapers with
  | nil => intro k h; cases h
  | cons kc rest ih =>
    obtain ⟨key, cfg⟩ := kc
    intro k h
    cases hl : mapIndex factories key with
    | none =>
      have hhd : createHostMetricsScraper factories key cfg =
          (none, false, none) := by
        unfold createHostMetricsScraper
        rw [hl]
      simp only [createAddScraperOptions, hhd] at h
      have hk : key = k := by
        injection h with h2
        injection h2 with h3
      subst hk
      rw [hl]
      rfl
    | some f =>
      cases hc : f.createMetricsScraper cfg with
      | error e =>
        have hhd : createHostMetricsScraper factories key cfg =
            (none, true, some e) := by
          unfold createHostMetricsScraper
          rw [hl]
          simp [hc]
        simp only [createAddScraperOptions, hhd] at h
        cases h
      | ok s =>
        have hhd : createHostMetricsScraper factories key cfg =
            (some s, true, none) := by
          unfold createHostMetricsScraper
          rw [hl]
          simp [hc]
        simp only [createAddScraperOptions, hhd] at h
        cases hr : createAddScraperOptions factories rest with
        | ok opts => rw [hr] at h; cases h
        | error e =>
          rw [hr] at h
          cases h
          exact ih k hr

/-- Claim C9: `createHostMetricsScraper` returns `ok = false` exactly
when the key has no registered factory; when a factory exists but its
scraper construction fails, it returns `ok = true` together with the
error, so `createAddScraperOptions` reports that failure as the
wrapping "failed to create scraper for key" error, and a "factory not
found" error is only ever produced for an unregistered key. -/
theorem createHostMetricsScraper_ok_flag_spec :
    (∀ (factories : List (String × ScraperFactory)) (key : String)
        (cfg : ScraperCfg),
      (createHostMetricsScraper factories key cfg).2.1 = false ↔
        (mapIndex factories key).isNone) ∧
    (∀ (factories : List (String × ScraperFactory)) (key : String)
        (cfg : ScraperCfg) (f : ScraperFactory) (e : String),
      mapIndex factories key = some f →
      f.createMetricsScraper cfg = .error e →
      createHostMetricsScraper factories key cfg = (none, true, some e)) ∧
    (∀ (factories : List (String × ScraperFactory)) (key : String)
        (cfg : ScraperCfg) (rest : List (String × ScraperCfg))
        (f : ScraperFactory) (e : String),
      mapIndex factories key = some f →
      f.createMetricsScraper cfg = .error e →
      createAddScraperOptions factories ((key, cfg) :: rest) =
        .error (.failedToCreate key e)) ∧
    (∀ (factories : List (String × ScraperFactory))
        (scrapers : List (String × ScraperCfg)) (k : String),
      createAddScraperOptions factories scrapers =
        .error (.factoryNotFound k) →
      (mapIndex factories k).isNone) := by
  refine ⟨?_, ?_, ?_, ?_⟩
  · intro factories key cfg
    cases hl : mapIndex factories key with
    | none =>
      unfold createHostMetricsScraper
      rw [hl]
      simp
    | some f =>
      unfold createHostMetricsScraper
      rw [hl]
      cases hc : f.createMetricsScraper cfg <;> simp [hc]
  · intro factories key cfg f e hl hc
    unfold createHostMetricsScraper
    rw [hl]
    simp [hc]
  · intro factories key cfg rest f e hl hc
    have hhd : createHostMetricsScraper factories key cfg =
        (none, true, some e) := by
      unfold createHostMetricsScraper
      rw [hl]
      simp [hc]
    simp only [createAddScraperOptions, hhd]
  · intro factories scrapers k
    exact createAddScraperOptions_notFound_means_missing factories scrapers k

/-- A factory whose scraper construction always fails, used to witness
C9. -/
def failingFactory : ScraperFactory :=
  { createDefaultConfig := 0
    createMetricsScraper := fun _ => .error "boom" }

/-- Witness for C9: with a registered but failing factory under "cpu",
the scraper constructor reports `ok = true` with the error and the
options builder wraps it; a not-found error identifies an unregistered
key. -/
theorem createHostMetricsScraper_ok_flag_spec_witness :
    createHostMetricsScraper [("cpu", failingFactory)] "cpu" 0 =
      (none, true, some "boom") ∧
    createAddScraperOptions [("cpu", failingFactory)] [("cpu", 0)] =
      .error (.failedToCreate "cpu" "boom") ∧
    (mapIndex [("cpu", failingFactory)] "zzz").isNone :=
  ⟨createHostMetricsScraper_ok_flag_spec.2.1
      [("cpu", failingFactory)] "cpu" 0 failingFactory "boom" rfl rfl,
   createHostMetricsScraper_ok_flag_spec.2.2.1
      [("cpu", failingFactory)] "cpu" 0 [] failingFactory "boom" rfl rfl,
   createHostMetricsScraper_ok_flag_spec.2.2.2
      [("cpu", failingFactory)] [("zzz", 0)] "zzz" rfl⟩

/-- Claim C5: on every successful receiver construction, the lifecycle
event trace splits as `pre ++ [enable host cache, enable process cache]
++ post` where the two cache-enable events occur nowhere else (so each
is performed exactly once) and no scraper start operation precedes them;
moreover the cache switch itself is idempotent: enabling twice leaves
the same flag as enabling once. -/
theorem bootTimeCache_once_before_starts :
    ∀ (cfg : Config) (trace : List Event),
      receiverLifecycleEvents cfg = .ok trace →
      (∃ pre post,
        trace = pre ++ Event.enableHostBootTimeCache ::
          Event.enableProcessBootTimeCache :: post ∧
        Event.enableHostBootTimeCache ∉ pre ∧
        Event.enableHostBootTimeCache ∉ post ∧
        Event.enableProcessBootTimeCache ∉ pre ∧
        Event.enableProcessBootTimeCache ∉ post ∧
        (∀ k, Event.scraperStart k ∉ pre)) ∧
      (∀ enable flag : Bool,
        EnableBootTimeCache enable (EnableBootTimeCache enable flag) =
          EnableBootTimeCache enable flag) := by
  intro cfg trace h
  unfold receiverLifecycleEvents createMetricsReceiverEvents at h
  cases ho : createAddScraperOptions scraperFactories cfg.scrapers with
  | error e => rw [ho] at h; cases h
  | ok opts =>
    rw [ho] at h
    cases h
    refine ⟨⟨cfg.scrapers.map fun kc => Event.createScraper kc.1,
        controllerStartEvents cfg, ?_, ?_, ?_, ?_, ?_, ?_⟩,
      fun enable flag => rfl⟩
    · simp [controllerStartEvents]
    · intro hmem
      obtain ⟨kc, _, heq⟩ := List.mem_map.mp hmem
      exact Event.noConfusion heq
    · intro hmem
      obtain ⟨kc, _, heq⟩ := List.mem_map.mp hmem
      exact Event.noConfusion heq
    · intro hmem
      obtain ⟨kc, _, heq⟩ := List.mem_map.mp hmem
      exact Event.noConfusion heq
    · intro hmem
      obtain ⟨kc, _, heq⟩ := List.mem_map.mp hmem
      exact Event.noConfusion heq
    · intro k hmem
      obtain ⟨kc, _, heq⟩ := List.mem_map.mp hmem
      exact Event.noConfusion heq

/-- Witness for C5 at a one-scraper configuration: the trace is create,
enable host cache, enable process cache, start. -/
theorem bootTimeCache_once_before_starts_witness :
    (∃ pre post,
      [Event.createScraper "cpu", Event.enableHostBootTimeCache,
        Event.enableProcessBootTimeCache, Event.scraperStart "cpu"] =
        pre ++ Event.enableHostBootTimeCache ::
          Event.enableProcessBootTimeCache :: post ∧
      Event.enableHostBootTimeCache ∉ pre ∧
      Event.enableHostBootTimeCache ∉ post ∧
      Event.enableProcessBootTimeCache ∉ pre ∧
      Event.enableProcessBootTimeCache ∉ post ∧
      (∀ k, Event.scraperStart k ∉ pre)) ∧
    (∀ enable flag : Bool,
      EnableBootTimeCache enable (EnableBootTimeCache enable flag) =
        EnableBootTimeCache enable flag) :=
  bootTimeCache_once_before_starts ⟨⟨()⟩, 0, [("cpu", 0)]⟩
    [Event.createScraper "cpu", Event.enableHostBootTimeCache,
      Event.enableProcessBootTimeCache, Event.scraperStart "cpu"] rfl

end HostMetrics
